import Mathlib

/-!
# RSS adapter of the feeds package (`rss.go`)

A shallow embedding of `rss.go`: the RSS entity records, the two field
renderers, the item mapper `newRssItem`, the channel mapper `Rss.RssFeed`
and the document wrapper `FeedXml`.

Conventions of the embedding.

* Go strings are Lean `String`s.  The code only compares strings with `""`,
  takes `len(s) > 0`, concatenates them and splits them at the one-byte
  separator `/`; all of these agree on bytes and on characters.
* A Go pointer or interface value that the code tests against `nil` is an
  `Option`; `nil` is `none`.  The receiver of a mapper and the elements of
  `Items`, which the code dereferences unconditionally, are plain values.
* A run-time panic is a result of its own: functions that can panic return
  `Except Panic _`.
* A field that Go names `Type` is `Type_` here (`Type` is a Lean keyword).
* `time.Time.Format` belongs to the Go standard library; it is passed to the
  mappers as the parameter `Format`.
-/

namespace Feeds

/-! ## Go run-time and standard library -/

/-- The run-time panics that the statements of `rss.go` can raise. -/
inductive Panic where
  /-- "invalid memory address or nil pointer dereference": a method is called
  on a nil interface value, or a nil pointer is dereferenced. -/
  | nilPointerDereference
  /-- "index out of range": a slice is indexed at or past its length. -/
  | indexOutOfRange
  deriving DecidableEq, Repr

/-- The value `time.Time`: an instant as seconds and nanoseconds since
January 1, year 1, 00:00:00 UTC (the location is left out: `IsZero` does not
read it). -/
structure Time where
  sec : Int := 0
  nsec : Int := 0
  deriving DecidableEq, Repr

/-- The method `time.Time.IsZero`: the instant is January 1, year 1, 00:00:00 UTC. -/
def Time.IsZero (t : Time) : Bool := t.sec == 0 && t.nsec == 0

/-- The constant `time.RFC1123Z`. -/
def RFC1123Z : String := "Mon, 02 Jan 2006 15:04:05 -0700"

/-- The type `xml.Name`. -/
structure XmlName where
  Space : String := ""
  Local : String := ""
  deriving DecidableEq, Repr

/-- The pieces of a character sequence between the occurrences of `sep`; there
is always at least one piece. -/
def splitChars (sep : Char) : List Char → List (List Char)
  | [] => [[]]
  | c :: cs =>
    if c = sep then [] :: splitChars sep cs
    else
      match splitChars sep cs with
      | [] => [[c]]
      | w :: ws => (c :: w) :: ws

/-- The function `strings.Split(s, sep)` for a separator of one byte, the only
kind `rss.go` passes (`"/"`). -/
def strings_Split (s : String) (sep : Char) : List String :=
  (splitChars sep s.data).map String.mk

/-- The call `fmt.Sprintf("%s (%s)", a, b)`. -/
def Sprintf_s_paren_s (a b : String) : String := a ++ " (" ++ b ++ ")"

/-- The index expression `xs[0]` on a slice: it panics on an empty slice. -/
def index0 {α : Type} : List α → Except Panic α
  | [] => .error .indexOutOfRange
  | x :: _ => .ok x

/-! ## The generic model (declared outside `rss.go`) -/

/-- Modelled from the spec: the generic link reference `Link` is declared
outside `rss.go`; the adapter reads its address field `Href` only. -/
structure Link where
  Href : String := ""
  deriving DecidableEq, Repr

/-- Modelled from the spec: the generic `Author` (name + email) is declared
outside `rss.go`. -/
structure Author where
  Name : String := ""
  Email : String := ""
  deriving DecidableEq, Repr

/-- Modelled from the spec: the generic `Image` is declared outside `rss.go`;
its fields are the five that `RssFeed` copies. -/
structure Image where
  Url : String := ""
  Title : String := ""
  Link : String := ""
  Width : Int := 0
  Height : Int := 0
  deriving DecidableEq, Repr

/-- Modelled from the spec: the media attachment of a generic item (url, mime
type, length) is declared outside `rss.go`; `newRssItem` reads `Url`, `Type`
and `Length`. -/
structure MediaContent where
  Url : String := ""
  Type_ : String := ""
  Length : String := ""
  deriving DecidableEq, Repr

/-- Modelled from the spec: the generic `Item` is declared outside `rss.go`;
its fields are those `newRssItem` reads. -/
structure Item where
  Title : String := ""
  Link : Option Feeds.Link := none
  Source : Option Feeds.Link := none
  Author : Option Feeds.Author := none
  Description : String := ""
  Id : String := ""
  Updated : Time := {}
  Created : Time := {}
  Content : String := ""
  Category : String := ""
  MediaContent : Option Feeds.MediaContent := none
  MediaTitle : String := ""
  MediaKeywords : String := ""
  deriving DecidableEq, Repr

/-- Modelled from the spec: the generic `Feed` is declared outside `rss.go`;
its fields are those `Rss.RssFeed` reads. -/
structure Feed where
  Title : String := ""
  Link : Option Feeds.Link := none
  Description : String := ""
  Author : Option Feeds.Author := none
  Updated : Time := {}
  Created : Time := {}
  Items : List Item := []
  Copyright : String := ""
  Image : Option Feeds.Image := none
  deriving DecidableEq, Repr

/-- Modelled from the spec: the helper `anyTimeFormat(format, times...)` is
declared outside `rss.go`.  It formats, in the given layout, the first
non-zero timestamp among its arguments, and gives the empty string when all
of them are zero. -/
def anyTimeFormat (Format : Time → String → String) (format : String) : List Time → String
  | [] => ""
  | t :: times => if t.IsZero then anyTimeFormat Format format times else Format t format

/-! ## Field renderers -/

/-- The interface `RssTitle` with its two implementations `RssTitleString` and
`RssTitleStringEncoded`. -/
inductive RssTitle where
  | RssTitleString (XMLName : XmlName) (Title : String)
  | RssTitleStringEncoded (XMLName : XmlName) (Title : String)
  deriving DecidableEq, Repr

/-- The method `SetTitle` of both implementations of `RssTitle`. -/
def RssTitle.SetTitle : RssTitle → String → RssTitle
  | .RssTitleString _ _, title => .RssTitleString {} title
  | .RssTitleStringEncoded _ _, title => .RssTitleStringEncoded {} title

/-- The interface `RssDescription` with its two implementations
`*RssDescriptionString` and `RssDescriptionStringEncoded`. -/
inductive RssDescription where
  | RssDescriptionString (XMLName : XmlName) (Description : String)
  | RssDescriptionStringEncoded (XMLName : XmlName) (Description : String)
  deriving DecidableEq, Repr

/-- The method `SetDesc` of both implementations of `RssDescription`. -/
def RssDescription.SetDesc : RssDescription → String → RssDescription
  | .RssDescriptionString _ _, desk => .RssDescriptionString {} desk
  | .RssDescriptionStringEncoded _ _, desk => .RssDescriptionStringEncoded {} desk

/-- The call `x.SetTitle(title)` on a value `x` of interface type `RssTitle`:
a nil interface has no method to dispatch to and the call panics. -/
def callSetTitle (x : Option RssTitle) (title : String) : Except Panic RssTitle :=
  match x with
  | none => .error .nilPointerDereference
  | some rst => .ok (rst.SetTitle title)

/-- The call `x.SetDesc(desk)` on a value `x` of interface type
`RssDescription`: a nil interface has no method to dispatch to and the call
panics. -/
def callSetDesc (x : Option RssDescription) (desk : String) : Except Panic RssDescription :=
  match x with
  | none => .error .nilPointerDereference
  | some rsd => .ok (rsd.SetDesc desk)

/-! ## Entity records -/

/-- The record `RssContent`. -/
structure RssContent where
  XMLName : XmlName := {}
  Content : String := ""
  deriving DecidableEq, Repr

/-- The record `RssImage`. -/
structure RssImage where
  XMLName : XmlName := {}
  Url : String := ""
  Title : String := ""
  Link : String := ""
  Width : Int := 0
  Height : Int := 0
  deriving DecidableEq, Repr

/-- The record `RssTextInput`. -/
structure RssTextInput where
  XMLName : XmlName := {}
  Title : String := ""
  Description : String := ""
  Name : String := ""
  Link : String := ""
  deriving DecidableEq, Repr

/-- The record `Id` (the guid of an item). -/
structure Id where
  XMLName : XmlName := {}
  IsPermaLink : Bool := false
  Guid : String := ""
  deriving DecidableEq, Repr

/-- The record `RssMediaContent`. -/
structure RssMediaContent where
  XMLName : XmlName := {}
  Url : String := ""
  Length : String := ""
  Type_ : String := ""
  Medium : String := ""
  deriving DecidableEq, Repr

/-- The record `RssMediaTitle`. -/
structure RssMediaTitle where
  XMLName : XmlName := {}
  Type_ : String := ""
  Title : String := ""
  deriving DecidableEq, Repr

/-- The record `RssItem`; every field defaults to its Go zero value. -/
structure RssItem where
  XMLName : XmlName := {}
  Title : Option RssTitle := none
  Link : String := ""
  Description : Option RssDescription := none
  Content : Option RssContent := none
  Author : String := ""
  Category : String := ""
  Comments : String := ""
  MediaContent : Option RssMediaContent := none
  MediaKeywords : String := ""
  MediaTitle : Option RssMediaTitle := none
  Guid : Option Id := none
  PubDate : String := ""
  Source : String := ""
  deriving DecidableEq, Repr

/-- The record `RssFeed` (the channel); every field defaults to its Go zero
value. -/
structure RssFeed where
  XMLName : XmlName := {}
  Title : String := ""
  Link : String := ""
  Description : String := ""
  Language : String := ""
  Copyright : String := ""
  ManagingEditor : String := ""
  WebMaster : String := ""
  PubDate : String := ""
  LastBuildDate : String := ""
  Category : String := ""
  Generator : String := ""
  Docs : String := ""
  Cloud : String := ""
  Ttl : Int := 0
  Rating : String := ""
  SkipHours : String := ""
  SkipDays : String := ""
  Image : Option RssImage := none
  TextInput : Option RssTextInput := none
  Items : List RssItem := []
  deriving DecidableEq, Repr

/-- The record `RssFeedXml`, the `<rss>` envelope. -/
structure RssFeedXml where
  XMLName : XmlName := {}
  Version : String := ""
  ContentNamespace : String := ""
  Channel : Option RssFeed := none
  deriving DecidableEq, Repr

/-- The type `Rss`: a wrapper that embeds the generic feed. -/
structure Rss where
  Feed : Feeds.Feed
  deriving DecidableEq, Repr

/-! ## Item mapper -/

/-- Lines 161-167 of `newRssItem`: the composite literal (publication date and
category) and the guid, set when the identifier is non-empty. -/
def newRssItem_init (Format : Time → String → String) (i : Item) : RssItem :=
  let item : RssItem :=
    { PubDate := anyTimeFormat Format RFC1123Z [i.Created, i.Updated],
      Category := i.Category }
  if i.Id ≠ "" then { item with Guid := some { Guid := i.Id, IsPermaLink := true } }
  else item

/-- The condition of line 182,
`i.MediaContent != nil && i.MediaContent.Type != "" && i.MediaContent.Length != ""`:
the media attachment when the condition holds, nothing otherwise. -/
def mediaGuard (i : Item) : Option Feeds.MediaContent :=
  match i.MediaContent with
  | some m => if m.Type_ ≠ "" ∧ m.Length ≠ "" then some m else none
  | none => none

/-- Lines 171-195 of `newRssItem`: link, encoded content, source, the media
block and the author are copied into `item`, which is then returned. -/
def newRssItem_fill (item : RssItem) (i : Item) : Except Panic RssItem := do
  let item := match i.Link with
    | some l => { item with Link := l.Href }
    | none => item
  let item := if i.Content.length > 0 then { item with Content := some { Content := i.Content } }
    else item
  let item := match i.Source with
    | some l => { item with Source := l.Href }
    | none => item
  let item ← match mediaGuard i with
    | some m => do
      let medium ← index0 (strings_Split m.Type_ '/')
      let item := { item with
        MediaContent := some { Url := m.Url, Type_ := m.Type_, Medium := medium } }
      let item := if i.MediaTitle ≠ "" then
          { item with MediaTitle := some { Title := i.MediaTitle, Type_ := "plain" } }
        else item
      let item := if i.MediaKeywords ≠ "" then { item with MediaKeywords := i.MediaKeywords }
        else item
      pure item
    | none => pure item
  let item := match i.Author with
    | some a => { item with Author := a.Name }
    | none => item
  pure item

/-- The function `newRssItem`.  Between the guid (line 167) and the link
(line 171) it calls `SetTitle` on `item.Title` and `SetDesc` on
`item.Description` as expression statements: the values the calls return are
dropped and `item` is not assigned. -/
def newRssItem (Format : Time → String → String) (i : Item) : Except Panic RssItem := do
  let item := newRssItem_init Format i
  let _ ← callSetTitle item.Title i.Title
  let _ ← callSetDesc item.Description i.Description
  newRssItem_fill item i

/-! ## Channel mapper -/

/-- Lines 200-228 of `Rss.RssFeed`: the channel record before the items are
appended. -/
def Rss.RssFeed_header (Format : Time → String → String) (r : Rss) : Feeds.RssFeed :=
  let pub := anyTimeFormat Format RFC1123Z [r.Feed.Created, r.Feed.Updated]
  let build := anyTimeFormat Format RFC1123Z [r.Feed.Updated]
  let author := match r.Feed.Author with
    | some a => if a.Name.length > 0 then Sprintf_s_paren_s a.Email a.Name else a.Email
    | none => ""
  let image : Option RssImage := match r.Feed.Image with
    | some im =>
      some { Url := im.Url, Title := im.Title, Link := im.Link, Width := im.Width,
             Height := im.Height }
    | none => none
  let href := match r.Feed.Link with
    | some l => l.Href
    | none => ""
  { Title := r.Feed.Title,
    Link := href,
    Description := r.Feed.Description,
    ManagingEditor := author,
    PubDate := pub,
    LastBuildDate := build,
    Copyright := r.Feed.Copyright,
    Image := image }

/-- The method `Rss.RssFeed`: the header, then the loop of lines 229-231 that
appends `newRssItem(i)` for each item in turn. -/
def Rss.RssFeed (Format : Time → String → String) (r : Rss) : Except Panic Feeds.RssFeed :=
  r.Feed.Items.foldlM
    (fun channel i => do
      let item ← newRssItem Format i
      pure { channel with Items := channel.Items ++ [item] })
    (r.RssFeed_header Format)

/-! ## Document wrapper -/

/-- The method `RssFeed.FeedXml`.  The receiver is a pointer that the method
stores without reading it, so it is an `Option` here: a channel record `c` is
passed as `some c`. -/
def RssFeed.FeedXml (r : Option Feeds.RssFeed) : RssFeedXml :=
  { Version := "2.0",
    Channel := r,
    ContentNamespace := "http://purl.org/rss/1.0/modules/content/" }

/-- The method `Rss.FeedXml`: `r.RssFeed().FeedXml()`. -/
def Rss.FeedXml (Format : Time → String → String) (r : Rss) : Except Panic RssFeedXml := do
  let channel ← Feeds.Rss.RssFeed Format r
  pure (Feeds.RssFeed.FeedXml (some channel))

/-! ## Auxiliary facts -/

/-- The first piece of a split is the longest prefix free of the separator. -/
theorem splitChars_head (sep : Char) (cs : List Char) :
    ∃ rest, splitChars sep cs = cs.takeWhile (fun c => c != sep) :: rest := by
  induction cs with
  | nil => exact ⟨[], rfl⟩
  | cons c cs ih =>
    obtain ⟨rest, h⟩ := ih
    by_cases hc : c = sep
    · exact ⟨splitChars sep cs, by simp [splitChars, hc]⟩
    · exact ⟨rest, by simp [splitChars, hc, h]⟩

/-- Indexing the result of `strings.Split` at 0 never panics and gives the
longest prefix free of the separator. -/
theorem index0_strings_Split (s : String) (sep : Char) :
    index0 (strings_Split s sep) = .ok (String.mk (s.data.takeWhile (fun c => c != sep))) := by
  obtain ⟨rest, h⟩ := splitChars_head sep s.data
  simp [strings_Split, h, index0]

/-- The item literal of `newRssItem` leaves `Title` nil. -/
theorem newRssItem_init_Title (Format : Time → String → String) (i : Item) :
    (newRssItem_init Format i).Title = none := by
  unfold newRssItem_init
  split <;> rfl

/-- The item literal of `newRssItem` leaves `Description` nil. -/
theorem newRssItem_init_Description (Format : Time → String → String) (i : Item) :
    (newRssItem_init Format i).Description = none := by
  unfold newRssItem_init
  split <;> rfl

/-- The call of `SetTitle` on the nil `item.Title` stops `newRssItem` on every input. -/
theorem newRssItem_eq_error (Format : Time → String → String) (i : Item) :
    newRssItem Format i = .error .nilPointerDereference := by
  simp only [newRssItem, newRssItem_init_Title, callSetTitle]
  rfl

/-- The loop of `Rss.RssFeed` over any item mapper `g` is the in-order
traversal of the items by `g`, appended to the items already in the channel;
it fails exactly when `g` fails on some item. -/
theorem foldlM_append_eq_mapM (g : Item → Except Panic RssItem) (items : List Item)
    (ch : RssFeed) :
    items.foldlM
        (fun channel i => do
          let item ← g i
          pure { channel with Items := channel.Items ++ [item] })
        ch
      = (items.mapM g).map (fun its => { ch with Items := ch.Items ++ its }) := by
  induction items generalizing ch with
  | nil =>
    rw [List.foldlM_nil, List.mapM_nil]
    simp [Except.map, pure, Except.pure]
  | cons i items ih =>
    rw [List.foldlM_cons, List.mapM_cons]
    cases hg : g i with
    | error e => rfl
    | ok item =>
      simp only [bind, Except.bind, pure, Except.pure] at ih ⊢
      rw [ih]
      cases hm : List.mapM g items with
      | error e => rfl
      | ok its => simp [Except.map]

/-- The channel header has no items. -/
theorem RssFeed_header_Items (Format : Time → String → String) (r : Rss) :
    (r.RssFeed_header Format).Items = [] := rfl

/-- The method `Rss.RssFeed` returns the header for a feed without items and
panics for every other feed. -/
theorem RssFeed_eq (Format : Time → String → String) (r : Rss) :
    r.RssFeed Format =
      if r.Feed.Items = [] then .ok (r.RssFeed_header Format)
      else .error .nilPointerDereference := by
  unfold Rss.RssFeed
  cases h : r.Feed.Items with
  | nil => rfl
  | cons i items =>
    rw [List.foldlM_cons, newRssItem_eq_error]
    rfl

/-- Lines 171-195 of `newRssItem` never panic; they change the seven fields
below and no other. -/
theorem newRssItem_fill_eq (item : RssItem) (i : Item) :
    newRssItem_fill item i = .ok
      { item with
        Link := (match i.Link with
          | some l => l.Href
          | none => item.Link),
        Content := (if i.Content.length > 0 then some { Content := i.Content }
          else item.Content),
        Source := (match i.Source with
          | some l => l.Href
          | none => item.Source),
        MediaContent := (match mediaGuard i with
          | some m =>
            some { Url := m.Url, Type_ := m.Type_,
                   Medium := String.mk (m.Type_.data.takeWhile (fun c => c != '/')) }
          | none => item.MediaContent),
        MediaTitle := (match mediaGuard i with
          | some _ =>
            if i.MediaTitle ≠ "" then some { Title := i.MediaTitle, Type_ := "plain" }
            else item.MediaTitle
          | none => item.MediaTitle),
        MediaKeywords := (match mediaGuard i with
          | some _ => if i.MediaKeywords ≠ "" then i.MediaKeywords else item.MediaKeywords
          | none => item.MediaKeywords),
        Author := (match i.Author with
          | some a => a.Name
          | none => item.Author) } := by
  unfold newRssItem_fill
  cases i.Link <;> cases i.Source <;> cases i.Author <;> cases mediaGuard i <;>
    by_cases hc : i.Content.length > 0 <;>
    simp only [index0_strings_Split, hc, bind, Except.bind, pure, Except.pure, if_true, if_false] <;>
    first
    | rfl
    | (by_cases ht : i.MediaTitle = "" <;> by_cases hk : i.MediaKeywords = "" <;>
        simp [ht, hk])

/-- The condition of line 182 holds exactly when the attachment is present
with a non-empty mime type and a non-empty length. -/
theorem mediaGuard_eq_some_iff (i : Item) (m : MediaContent) :
    mediaGuard i = some m ↔ i.MediaContent = some m ∧ m.Type_ ≠ "" ∧ m.Length ≠ "" := by
  unfold mediaGuard
  cases h : i.MediaContent with
  | none => simp
  | some m' =>
    by_cases hg : m'.Type_ ≠ "" ∧ m'.Length ≠ ""
    · show (if m'.Type_ ≠ "" ∧ m'.Length ≠ "" then some m' else none) = some m ↔ _
      rw [if_pos hg]
      constructor
      · intro e
        have e' : m' = m := Option.some.inj e
        subst e'
        exact ⟨rfl, hg⟩
      · exact fun e => e.1
    · show (if m'.Type_ ≠ "" ∧ m'.Length ≠ "" then some m' else none) = some m ↔ _
      rw [if_neg hg]
      constructor
      · intro e
        cases e
      · rintro ⟨e, h1, h2⟩
        have e' : m' = m := Option.some.inj e
        subst e'
        exact absurd ⟨h1, h2⟩ hg

/-- The test `len(s) > 0` is the test `s != ""`. -/
theorem length_pos_iff_ne_empty (s : String) : s.length > 0 ↔ s ≠ "" := by
  cases s with
  | mk l => cases l <;> simp [String.length, String.ext_iff]

/-! ## The claims -/

/-- C1 (fails on the code): `newRssItem` returns an item for no generic item.
On every input the call `item.Title.SetTitle(i.Title)` of line 169 is made on
the nil interface value that the item literal leaves in `Title`, and the
function stops in a nil-pointer panic. -/
theorem newRssItem_panics_on_every_item (Format : Time → String → String) (i : Item) :
    newRssItem Format i = Except.error Panic.nilPointerDereference := by
  exact newRssItem_eq_error Format i

/-- C2 (fails on the code): the title and the description of the mapped item
are never set.  When `SetTitle` and `SetDesc` are called (lines 169-170) both
fields are still nil, so the first call panics; the rest of the function
(lines 171-195) runs to its end from any item record and leaves both fields as
it found them, so nothing assigns them either. -/
theorem newRssItem_title_never_set (Format : Time → String → String) (i : Item) :
    (newRssItem_init Format i).Title = none ∧
    (newRssItem_init Format i).Description = none ∧
    callSetTitle (newRssItem_init Format i).Title i.Title
      = Except.error Panic.nilPointerDereference ∧
    (∀ item : RssItem, ∃ item', newRssItem_fill item i = Except.ok item' ∧
      item'.Title = item.Title ∧ item'.Description = item.Description) ∧
    ∀ item : RssItem, newRssItem Format i ≠ Except.ok item := by
  refine ⟨newRssItem_init_Title Format i, newRssItem_init_Description Format i, ?_, ?_, ?_⟩
  · rw [newRssItem_init_Title]
    rfl
  · intro item
    exact ⟨_, newRssItem_fill_eq item i, rfl, rfl⟩
  · intro item h
    rw [newRssItem_eq_error] at h
    cases h

/-- C3 (fails on the code): `Rss.RssFeed` traverses the items in order with
`newRssItem` and returns a channel only if every call returns; as no call
does, a channel is returned exactly for the feeds without items, and the feed
with one zero-valued item already panics. -/
theorem RssFeed_items_traversal (Format : Time → String → String) (r : Rss) :
    r.RssFeed Format
      = (r.Feed.Items.mapM (newRssItem Format)).map
          (fun items => { r.RssFeed_header Format with Items := items }) ∧
    ((∃ channel, r.RssFeed Format = Except.ok channel) ↔ r.Feed.Items = []) ∧
    Rss.RssFeed Format ⟨{ Items := [{}] }⟩ = Except.error Panic.nilPointerDereference := by
  refine ⟨?_, ?_, ?_⟩
  · unfold Rss.RssFeed
    rw [foldlM_append_eq_mapM (newRssItem Format) r.Feed.Items (r.RssFeed_header Format)]
    simp [RssFeed_header_Items]
  · rw [RssFeed_eq]
    by_cases h : r.Feed.Items = []
    · simp [h]
    · simp [h]
  · rw [RssFeed_eq]
    rfl

/-- C4 (fails on the code): the item literal of lines 161-164 carries the
publication date the claim describes (creation time first, then update time,
else empty) and lines 171-195 keep it, but `newRssItem` panics at line 169 and
returns no item. -/
theorem newRssItem_pubDate_lost (Format : Time → String → String) (i : Item) :
    (newRssItem_init Format i).PubDate
      = (if i.Created.IsZero then
          if i.Updated.IsZero then "" else Format i.Updated RFC1123Z
        else Format i.Created RFC1123Z) ∧
    (∀ item : RssItem, ∃ item', newRssItem_fill item i = Except.ok item' ∧
      item'.PubDate = item.PubDate) ∧
    newRssItem Format i = Except.error Panic.nilPointerDereference := by
  refine ⟨?_, ?_, newRssItem_eq_error Format i⟩
  · unfold newRssItem_init
    split <;> simp [anyTimeFormat]
  · intro item
    exact ⟨_, newRssItem_fill_eq item i, rfl⟩

/-- C5 (fails on the code): the channel header of lines 200-228 carries the
last-build date the claim describes (the formatted update time, empty when the
update time is zero, whatever the creation time), but `Rss.RssFeed` returns
that header only for a feed without items: for any other feed, such as the one
with a non-zero update time and one item, it panics in `newRssItem`. -/
theorem RssFeed_lastBuildDate_lost (Format : Time → String → String) (r : Rss) :
    (r.RssFeed_header Format).LastBuildDate
      = (if r.Feed.Updated.IsZero then "" else Format r.Feed.Updated RFC1123Z) ∧
    r.RssFeed Format
      = (if r.Feed.Items = [] then Except.ok (r.RssFeed_header Format)
         else Except.error Panic.nilPointerDereference) ∧
    Rss.RssFeed Format ⟨{ Updated := { sec := 1 }, Items := [{}] }⟩
      = Except.error Panic.nilPointerDereference := by
  refine ⟨?_, RssFeed_eq Format r, ?_⟩
  · simp [Rss.RssFeed_header, anyTimeFormat]
  · rw [RssFeed_eq]
    rfl

/-- C6 (fails on the code): the channel header of lines 200-228 carries the
publication date the claim describes (creation time first, then update time,
else empty), but `Rss.RssFeed` returns that header only for a feed without
items: for any other feed, such as the one with a non-zero creation time and
one item, it panics in `newRssItem`. -/
theorem RssFeed_pubDate_lost (Format : Time → String → String) (r : Rss) :
    (r.RssFeed_header Format).PubDate
      = (if r.Feed.Created.IsZero then
          if r.Feed.Updated.IsZero then "" else Format r.Feed.Updated RFC1123Z
        else Format r.Feed.Created RFC1123Z) ∧
    r.RssFeed Format
      = (if r.Feed.Items = [] then Except.ok (r.RssFeed_header Format)
         else Except.error Panic.nilPointerDereference) ∧
    Rss.RssFeed Format ⟨{ Created := { sec := 1 }, Items := [{}] }⟩
      = Except.error Panic.nilPointerDereference := by
  refine ⟨?_, RssFeed_eq Format r, ?_⟩
  · simp [Rss.RssFeed_header, anyTimeFormat]
  · rw [RssFeed_eq]
    rfl

/-- C7 (fails on the code): run on the item literal, lines 171-195 build the
media-content record exactly when the attachment is present with a non-empty
mime type and a non-empty length, with the url and the mime type of the
attachment; but `newRssItem` panics at line 169, before these lines, and
returns no item. -/
theorem newRssItem_mediaContent_lost (Format : Time → String → String) (i : Item) :
    (∃ item', newRssItem_fill (newRssItem_init Format i) i = Except.ok item' ∧
      (item'.MediaContent.isSome = true ↔
        ∃ m, i.MediaContent = some m ∧ m.Type_ ≠ "" ∧ m.Length ≠ "") ∧
      (∀ m mc, i.MediaContent = some m → item'.MediaContent = some mc →
        mc.Url = m.Url ∧ mc.Type_ = m.Type_)) ∧
    newRssItem Format i = Except.error Panic.nilPointerDereference := by
  refine ⟨⟨_, newRssItem_fill_eq _ i, ?_, ?_⟩, newRssItem_eq_error Format i⟩
  · have hinit : (newRssItem_init Format i).MediaContent = none := by
      unfold newRssItem_init
      split <;> rfl
    cases hg : mediaGuard i with
    | none =>
      simp only [hinit, Option.isSome_none, Bool.false_eq_true, false_iff, not_exists]
      intro m hm
      have := (mediaGuard_eq_some_iff i m).mpr hm
      rw [hg] at this
      cases this
    | some m =>
      simp only [Option.isSome_some, true_iff]
      exact ⟨m, (mediaGuard_eq_some_iff i m).mp hg⟩
  · intro m mc hm hmc
    have hinit : (newRssItem_init Format i).MediaContent = none := by
      unfold newRssItem_init
      split <;> rfl
    cases hg : mediaGuard i with
    | none =>
      rw [hg] at hmc
      simp only [hinit] at hmc
      cases hmc
    | some m' =>
      rw [hg] at hmc
      have hm' := ((mediaGuard_eq_some_iff i m').mp hg).1
      rw [hm] at hm'
      have e : m = m' := Option.some.inj hm'
      subst e
      have e2 := Option.some.inj hmc
      subst e2
      exact ⟨rfl, rfl⟩

/-- C8 (fails on the code): the expression `strings.Split(t, "/")[0]` of line
183 never indexes out of range and gives the part of `t` before its first `/`,
or `t` itself when it has none ("video/mp4" gives "video", "image/png" gives
"image", "a/b/c" gives "a"), and lines 171-195 store it as the medium of a
populated media block; but `newRssItem` panics at line 169, before line 183,
and returns no item. -/
theorem newRssItem_medium_lost (Format : Time → String → String) (i : Item) :
    (∀ t : String, ∀ pre post : List Char, t.data = pre ++ '/' :: post → '/' ∉ pre →
      index0 (strings_Split t '/') = Except.ok (String.mk pre)) ∧
    (∀ t : String, '/' ∉ t.data → index0 (strings_Split t '/') = Except.ok t) ∧
    index0 (strings_Split "video/mp4" '/') = Except.ok "video" ∧
    index0 (strings_Split "image/png" '/') = Except.ok "image" ∧
    index0 (strings_Split "a/b/c" '/') = Except.ok "a" ∧
    (∀ m, mediaGuard i = some m →
      ∃ item' mc, newRssItem_fill (newRssItem_init Format i) i = Except.ok item' ∧
        item'.MediaContent = some mc ∧
        index0 (strings_Split m.Type_ '/') = Except.ok mc.Medium) ∧
    newRssItem Format i = Except.error Panic.nilPointerDereference := by
  refine ⟨?_, ?_, rfl, rfl, rfl, ?_, newRssItem_eq_error Format i⟩
  · intro t pre post ht hpre
    rw [index0_strings_Split, ht, List.takeWhile_append_of_pos]
    · simp
    · intro c hc
      have : c ≠ '/' := fun e => hpre (e ▸ hc)
      simpa using this
  · intro t ht
    rw [index0_strings_Split]
    have : t.data.takeWhile (fun c => c != '/') = t.data := by
      rw [List.takeWhile_eq_self_iff]
      intro c hc
      have : c ≠ '/' := fun e => ht (e ▸ hc)
      simpa using this
    rw [this]
  · intro m hm
    refine ⟨_, { Url := m.Url, Type_ := m.Type_,
                 Medium := String.mk (m.Type_.data.takeWhile (fun c => c != '/')) },
      newRssItem_fill_eq _ i, ?_, ?_⟩
    · rw [hm]
    · rw [index0_strings_Split]

/-- C9 (fails on the code): the item literal of lines 161-167 carries the guid
the claim describes (present exactly for a non-empty identifier, with that
identifier and the permalink flag set) and lines 171-195 keep it, but
`newRssItem` panics at line 169 and returns no item. -/
theorem newRssItem_guid_lost (Format : Time → String → String) (i : Item) :
    (newRssItem_init Format i).Guid
      = (if i.Id = "" then none else some { Guid := i.Id, IsPermaLink := true }) ∧
    (∀ item : RssItem, ∃ item', newRssItem_fill item i = Except.ok item' ∧
      item'.Guid = item.Guid) ∧
    newRssItem Format i = Except.error Panic.nilPointerDereference := by
  refine ⟨?_, ?_, newRssItem_eq_error Format i⟩
  · unfold newRssItem_init
    by_cases h : i.Id = ""
    · simp [h]
    · simp [h]
  · intro item
    exact ⟨_, newRssItem_fill_eq item i, rfl⟩

/-- C10 (fails on the code): the channel header of lines 200-228 carries the
managing editor the claim describes (empty without an author, the email alone
for an author with an empty name, otherwise the email, a space and the name in
parentheses), but `Rss.RssFeed` returns that header only for a feed without
items: for any other feed, such as the one of author "Name", "a@b.com" with
one item, it panics in `newRssItem`. -/
theorem RssFeed_managingEditor_lost (Format : Time → String → String) (r : Rss) :
    (r.RssFeed_header Format).ManagingEditor
      = (match r.Feed.Author with
         | none => ""
         | some a => if a.Name = "" then a.Email else a.Email ++ " (" ++ a.Name ++ ")") ∧
    (Rss.RssFeed_header Format
        ⟨{ Author := some { Name := "Name", Email := "a@b.com" } }⟩).ManagingEditor
      = "a@b.com (Name)" ∧
    (Rss.RssFeed_header Format
        ⟨{ Author := some { Name := "", Email := "a@b.com" } }⟩).ManagingEditor
      = "a@b.com" ∧
    r.RssFeed Format
      = (if r.Feed.Items = [] then Except.ok (r.RssFeed_header Format)
         else Except.error Panic.nilPointerDereference) ∧
    Rss.RssFeed Format
        ⟨{ Author := some { Name := "Name", Email := "a@b.com" }, Items := [{}] }⟩
      = Except.error Panic.nilPointerDereference := by
  refine ⟨?_, rfl, rfl, RssFeed_eq Format r, ?_⟩
  · unfold Rss.RssFeed_header
    cases r.Feed.Author with
    | none => rfl
    | some a =>
      show (if a.Name.length > 0 then Sprintf_s_paren_s a.Email a.Name else a.Email)
        = if a.Name = "" then a.Email else a.Email ++ " (" ++ a.Name ++ ")"
      by_cases h : a.Name = ""
      · have h0 : ¬ a.Name.length > 0 := fun hp => (length_pos_iff_ne_empty a.Name).mp hp h
        rw [if_neg h0, if_pos h]
      · have h0 : a.Name.length > 0 := (length_pos_iff_ne_empty a.Name).mpr h
        rw [if_pos h0, if_neg h]
        rfl
  · rw [RssFeed_eq]
    rfl

/-! ## Further auxiliary facts -/

/-- The item literal of `newRssItem` leaves every field that lines 171-195
may set at its zero value. -/
theorem newRssItem_init_zero (Format : Time → String → String) (i : Item) :
    (newRssItem_init Format i).Link = "" ∧
    (newRssItem_init Format i).Source = "" ∧
    (newRssItem_init Format i).Author = "" ∧
    (newRssItem_init Format i).Content = none ∧
    (newRssItem_init Format i).MediaContent = none ∧
    (newRssItem_init Format i).MediaTitle = none ∧
    (newRssItem_init Format i).MediaKeywords = "" := by
  unfold newRssItem_init
  split <;> exact ⟨rfl, rfl, rfl, rfl, rfl, rfl, rfl⟩

/-- The condition of line 182 fails exactly when the attachment is absent or
has an empty mime type or an empty length. -/
theorem mediaGuard_eq_none_iff (i : Item) :
    mediaGuard i = none ↔
      i.MediaContent = none ∨ ∃ m, i.MediaContent = some m ∧ (m.Type_ = "" ∨ m.Length = "") := by
  unfold mediaGuard
  cases h : i.MediaContent with
  | none => simp
  | some m =>
    show (if m.Type_ ≠ "" ∧ m.Length ≠ "" then some m else none) = none ↔ _
    by_cases hg : m.Type_ ≠ "" ∧ m.Length ≠ ""
    · rw [if_pos hg]
      constructor
      · intro e
        cases e
      · rintro (e | ⟨m', e, h'⟩)
        · cases e
        · have e' : m = m' := Option.some.inj e
          subst e'
          rcases h' with h' | h'
          · exact absurd h' hg.1
          · exact absurd h' hg.2
    · rw [if_neg hg]
      constructor
      · intro _
        refine Or.inr ⟨m, rfl, ?_⟩
        by_cases ht : m.Type_ = ""
        · exact Or.inl ht
        · right
          by_contra hl
          exact hg ⟨ht, hl⟩
      · intro _
        rfl

/-- The method `Rss.FeedXml` wraps the header for a feed without items and
panics for every other feed. -/
theorem Rss_FeedXml_eq (Format : Time → String → String) (r : Rss) :
    r.FeedXml Format =
      if r.Feed.Items = [] then Except.ok (RssFeed.FeedXml (some (r.RssFeed_header Format)))
      else Except.error Panic.nilPointerDereference := by
  unfold Rss.FeedXml
  rw [RssFeed_eq]
  by_cases h : r.Feed.Items = []
  · rw [if_pos h, if_pos h]
    rfl
  · rw [if_neg h, if_neg h]
    rfl

/-! ## The claims, continued -/

/-- C11 (fails on the code): on the feed of the example (title "T", link
"http://x/", description "D", one item of title "I", link "http://x/1",
description "ID", created 2021-01-01T00:00:00Z) `Rss.FeedXml` panics in
`newRssItem` and yields no document.  The item literal does carry the
RFC1123Z rendering of the creation time, and the same feed without its item
is wrapped in a document of version "2.0". -/
theorem Rss_FeedXml_end_to_end_panics (Format : Time → String → String) :
    Rss.FeedXml Format
        ⟨{ Title := "T", Link := some { Href := "http://x/" }, Description := "D",
           Items := [{ Title := "I", Link := some { Href := "http://x/1" },
                       Description := "ID", Created := { sec := 63745056000 } }] }⟩
      = Except.error Panic.nilPointerDereference ∧
    (newRssItem_init Format
        { Title := "I", Link := some { Href := "http://x/1" }, Description := "ID",
          Created := { sec := 63745056000 } }).PubDate
      = Format { sec := 63745056000 } RFC1123Z ∧
    (∃ doc, Rss.FeedXml Format
        ⟨{ Title := "T", Link := some { Href := "http://x/" }, Description := "D" }⟩
      = Except.ok doc ∧ doc.Version = "2.0" ∧
        doc.Channel.map (fun c => c.Items.length) = some 0) := by
  refine ⟨?_, ?_, ?_⟩
  · rw [Rss_FeedXml_eq]
    rfl
  · simp [newRssItem_init, anyTimeFormat, Time.IsZero]
  · refine ⟨_, Rss_FeedXml_eq Format _, rfl, rfl⟩

/-- C12: for every channel record `c`, `RssFeed.FeedXml` returns (it is a
total function without a branch) the document of version "2.0" whose content
namespace is "http://purl.org/rss/1.0/modules/content/" and whose channel is
`c`, unchanged. -/
theorem RssFeed_FeedXml_wraps (c : RssFeed) :
    (RssFeed.FeedXml (some c)).Version = "2.0" ∧
    (RssFeed.FeedXml (some c)).ContentNamespace = "http://purl.org/rss/1.0/modules/content/" ∧
    (RssFeed.FeedXml (some c)).Channel = some c :=
  ⟨rfl, rfl, rfl⟩

/-- C13 (fails on the code): run on the item literal, lines 171-195 give the
link, the source and the author the claim describes (the address of the link
or of the source, the name of the author, each empty when the reference is
absent); but `newRssItem` panics at line 169, before these lines, and returns
no item. -/
theorem newRssItem_references_lost (Format : Time → String → String) (i : Item) :
    (∃ item', newRssItem_fill (newRssItem_init Format i) i = Except.ok item' ∧
      item'.Link = (match i.Link with
        | some l => l.Href
        | none => "") ∧
      item'.Source = (match i.Source with
        | some l => l.Href
        | none => "") ∧
      item'.Author = (match i.Author with
        | some a => a.Name
        | none => "")) ∧
    newRssItem Format i = Except.error Panic.nilPointerDereference := by
  obtain ⟨hl, hs, ha, -, -, -, -⟩ := newRssItem_init_zero Format i
  refine ⟨⟨_, newRssItem_fill_eq _ i, ?_, ?_, ?_⟩, newRssItem_eq_error Format i⟩
  · show (match i.Link with
      | some l => l.Href
      | none => (newRssItem_init Format i).Link) = _
    rw [hl]
  · show (match i.Source with
      | some l => l.Href
      | none => (newRssItem_init Format i).Source) = _
    rw [hs]
  · show (match i.Author with
      | some a => a.Name
      | none => (newRssItem_init Format i).Author) = _
    rw [ha]

/-- C14 (fails on the code): run on the item literal, lines 171-195 build the
encoded-content block exactly when the content body is non-empty, and the
block then carries that body; but `newRssItem` panics at line 169, before
these lines, and returns no item. -/
theorem newRssItem_content_lost (Format : Time → String → String) (i : Item) :
    (∃ item', newRssItem_fill (newRssItem_init Format i) i = Except.ok item' ∧
      item'.Content = (if i.Content = "" then none else some { Content := i.Content }) ∧
      (item'.Content.isSome = true ↔ i.Content ≠ "")) ∧
    newRssItem Format i = Except.error Panic.nilPointerDereference := by
  obtain ⟨-, -, -, hc, -, -, -⟩ := newRssItem_init_zero Format i
  have key : (if i.Content.length > 0 then some ({ Content := i.Content } : RssContent)
        else (newRssItem_init Format i).Content)
      = (if i.Content = "" then none else some { Content := i.Content }) := by
    rw [hc]
    by_cases h : i.Content = ""
    · have h0 : ¬ i.Content.length > 0 := fun hp => (length_pos_iff_ne_empty _).mp hp h
      rw [if_neg h0, if_pos h]
    · have h0 : i.Content.length > 0 := (length_pos_iff_ne_empty _).mpr h
      rw [if_pos h0, if_neg h]
  refine ⟨⟨_, newRssItem_fill_eq _ i, key, ?_⟩, newRssItem_eq_error Format i⟩
  show (if i.Content.length > 0 then some ({ Content := i.Content } : RssContent)
        else (newRssItem_init Format i).Content).isSome = true ↔ _
  rw [key]
  by_cases h : i.Content = ""
  · simp [h]
  · simp [h]

/-- C15 (fails on the code): run on the item literal, lines 171-195 build a
media-title record only for a non-empty source media title, with that title
and the type "plain", and set the media keywords only to a non-empty source
string; but `newRssItem` panics at line 169, before these lines, and returns
no item. -/
theorem newRssItem_mediaTitle_lost (Format : Time → String → String) (i : Item) :
    (∃ item', newRssItem_fill (newRssItem_init Format i) i = Except.ok item' ∧
      (∀ mt, item'.MediaTitle = some mt →
        i.MediaTitle ≠ "" ∧ mt.Title = i.MediaTitle ∧ mt.Type_ = "plain") ∧
      (item'.MediaKeywords ≠ "" →
        i.MediaKeywords ≠ "" ∧ item'.MediaKeywords = i.MediaKeywords)) ∧
    (∃ item', newRssItem_fill
        (newRssItem_init Format
          { MediaContent := some { Url := "u", Type_ := "video/mp4", Length := "3" },
            MediaTitle := "t", MediaKeywords := "k" })
        { MediaContent := some { Url := "u", Type_ := "video/mp4", Length := "3" },
          MediaTitle := "t", MediaKeywords := "k" } = Except.ok item' ∧
      item'.MediaTitle = some { Title := "t", Type_ := "plain" } ∧
      item'.MediaKeywords = "k") ∧
    newRssItem Format i = Except.error Panic.nilPointerDereference := by
  obtain ⟨-, -, -, -, -, ht, hk⟩ := newRssItem_init_zero Format i
  refine ⟨⟨_, newRssItem_fill_eq _ i, ?_, ?_⟩, ⟨_, rfl, rfl, rfl⟩,
    newRssItem_eq_error Format i⟩
  · intro mt hmt
    change (match mediaGuard i with
      | some _ =>
        if i.MediaTitle ≠ "" then
          some ({ Title := i.MediaTitle, Type_ := "plain" } : RssMediaTitle)
        else (newRssItem_init Format i).MediaTitle
      | none => (newRssItem_init Format i).MediaTitle) = some mt at hmt
    rw [ht] at hmt
    cases hg : mediaGuard i with
    | none =>
      rw [hg] at hmt
      cases hmt
    | some m =>
      rw [hg] at hmt
      by_cases h : i.MediaTitle = ""
      · simp [h] at hmt
      · simp only [ne_eq, h, not_false_eq_true, if_true] at hmt
        have e := Option.some.inj hmt
        subst e
        exact ⟨h, rfl, rfl⟩
  · intro hne
    change (match mediaGuard i with
      | some _ =>
        if i.MediaKeywords ≠ "" then i.MediaKeywords
        else (newRssItem_init Format i).MediaKeywords
      | none => (newRssItem_init Format i).MediaKeywords) ≠ "" at hne
    show _ ∧ (match mediaGuard i with
      | some _ =>
        if i.MediaKeywords ≠ "" then i.MediaKeywords
        else (newRssItem_init Format i).MediaKeywords
      | none => (newRssItem_init Format i).MediaKeywords) = i.MediaKeywords
    rw [hk] at hne ⊢
    cases hg : mediaGuard i with
    | none =>
      rw [hg] at hne
      exact absurd rfl hne
    | some m =>
      rw [hg] at hne
      by_cases h : i.MediaKeywords = ""
      · simp [h] at hne
      · exact ⟨h, by simp [h]⟩

/-- C16 (fails on the code): the channel header of lines 200-228 carries the
image the claim describes (absent without a feed image, otherwise a copy of
its url, title, link, width and height), but `Rss.RssFeed` returns that header
only for a feed without items: for any other feed, such as the one with an
image and one item, it panics in `newRssItem`. -/
theorem RssFeed_image_lost (Format : Time → String → String) (r : Rss) :
    (r.RssFeed_header Format).Image
      = (match r.Feed.Image with
         | none => none
         | some im =>
           some { Url := im.Url, Title := im.Title, Link := im.Link, Width := im.Width,
                  Height := im.Height }) ∧
    r.RssFeed Format
      = (if r.Feed.Items = [] then Except.ok (r.RssFeed_header Format)
         else Except.error Panic.nilPointerDereference) ∧
    Rss.RssFeed Format
        ⟨{ Image := some { Url := "u", Title := "t", Link := "l", Width := 1, Height := 2 },
           Items := [{}] }⟩
      = Except.error Panic.nilPointerDereference := by
  refine ⟨?_, RssFeed_eq Format r, ?_⟩
  · unfold Rss.RssFeed_header
    cases r.Feed.Image <;> rfl
  · rw [RssFeed_eq]
    rfl

/-- C17 (fails on the code): the channel header of lines 200-228 carries the
link, title, description and copyright the claim describes (the address of the
feed link, empty without one, and the three strings of the feed unchanged),
but `Rss.RssFeed` returns that header only for a feed without items: for any
other feed, such as the one of title "T" with a link and one item, it panics
in `newRssItem`. -/
theorem RssFeed_link_title_lost (Format : Time → String → String) (r : Rss) :
    (r.RssFeed_header Format).Link
      = (match r.Feed.Link with
         | some l => l.Href
         | none => "") ∧
    (r.RssFeed_header Format).Title = r.Feed.Title ∧
    (r.RssFeed_header Format).Description = r.Feed.Description ∧
    (r.RssFeed_header Format).Copyright = r.Feed.Copyright ∧
    r.RssFeed Format
      = (if r.Feed.Items = [] then Except.ok (r.RssFeed_header Format)
         else Except.error Panic.nilPointerDereference) ∧
    Rss.RssFeed Format
        ⟨{ Title := "T", Link := some { Href := "http://x/" }, Description := "D",
           Copyright := "C", Items := [{}] }⟩
      = Except.error Panic.nilPointerDereference := by
  refine ⟨?_, rfl, rfl, rfl, RssFeed_eq Format r, ?_⟩
  · unfold Rss.RssFeed_header
    cases r.Feed.Link <;> rfl
  · rw [RssFeed_eq]
    rfl

/-- C18: `SetTitle` and `SetDesc` return, for every string `s`, a renderer of
the variant of the receiver that embeds exactly `s`, whatever the receiver
embedded: a plain title gives the plain title of `s`, an encoded title the
encoded title of `s`, and likewise for the two description variants.  The
methods are functions of the receiver and `s` alone: they assign nothing. -/
theorem SetTitle_SetDesc_same_variant (s : String) (n : XmlName) (old : String) :
    RssTitle.SetTitle (RssTitle.RssTitleString n old) s = RssTitle.RssTitleString {} s ∧
    RssTitle.SetTitle (RssTitle.RssTitleStringEncoded n old) s
      = RssTitle.RssTitleStringEncoded {} s ∧
    RssDescription.SetDesc (RssDescription.RssDescriptionString n old) s
      = RssDescription.RssDescriptionString {} s ∧
    RssDescription.SetDesc (RssDescription.RssDescriptionStringEncoded n old) s
      = RssDescription.RssDescriptionStringEncoded {} s ∧
    callSetTitle (some (RssTitle.RssTitleString n old)) s
      = Except.ok (RssTitle.RssTitleString {} s) ∧
    callSetDesc (some (RssDescription.RssDescriptionString n old)) s
      = Except.ok (RssDescription.RssDescriptionString {} s) :=
  ⟨rfl, rfl, rfl, rfl, rfl, rfl⟩

/-- C19 (fails on the code): run on the item literal, lines 171-195 leave the
media title absent and the media keywords empty whenever the attachment is
absent or has an empty mime type or an empty length, whatever the source
media title and keywords are; but `newRssItem` panics at line 169, before
these lines, and returns no item. -/
theorem newRssItem_media_gate_lost (Format : Time → String → String) (i : Item) :
    (∃ item', newRssItem_fill (newRssItem_init Format i) i = Except.ok item' ∧
      ((i.MediaContent = none ∨
          ∃ m, i.MediaContent = some m ∧ (m.Type_ = "" ∨ m.Length = "")) →
        item'.MediaTitle = none ∧ item'.MediaKeywords = "")) ∧
    (∃ item', newRssItem_fill
        (newRssItem_init Format
          { MediaContent := some { Url := "u", Type_ := "video/mp4", Length := "" },
            MediaTitle := "t", MediaKeywords := "k" })
        { MediaContent := some { Url := "u", Type_ := "video/mp4", Length := "" },
          MediaTitle := "t", MediaKeywords := "k" } = Except.ok item' ∧
      item'.MediaTitle = none ∧ item'.MediaKeywords = "") ∧
    newRssItem Format i = Except.error Panic.nilPointerDereference := by
  obtain ⟨-, -, -, -, -, ht, hk⟩ := newRssItem_init_zero Format i
  refine ⟨⟨_, newRssItem_fill_eq _ i, ?_⟩, ⟨_, rfl, rfl, rfl⟩, newRssItem_eq_error Format i⟩
  intro h
  have hg : mediaGuard i = none := (mediaGuard_eq_none_iff i).mpr h
  constructor
  · show (match mediaGuard i with
      | some _ =>
        if i.MediaTitle ≠ "" then
          some ({ Title := i.MediaTitle, Type_ := "plain" } : RssMediaTitle)
        else (newRssItem_init Format i).MediaTitle
      | none => (newRssItem_init Format i).MediaTitle) = none
    rw [hg]
    exact ht
  · show (match mediaGuard i with
      | some _ =>
        if i.MediaKeywords ≠ "" then i.MediaKeywords
        else (newRssItem_init Format i).MediaKeywords
      | none => (newRssItem_init Format i).MediaKeywords) = ""
    rw [hg]
    exact hk

/-- C20 (fails on the code): run on the item literal, lines 171-195 build, for
an attachment with a non-empty mime type and a non-empty length, a
media-content record whose `Length` is empty; but `newRssItem` panics at line
169, before these lines, and returns no item. -/
theorem newRssItem_media_length_lost (Format : Time → String → String) (i : Item) :
    (∃ item', newRssItem_fill (newRssItem_init Format i) i = Except.ok item' ∧
      (∀ m, i.MediaContent = some m → m.Type_ ≠ "" → m.Length ≠ "" →
        ∃ mc, item'.MediaContent = some mc ∧ mc.Length = "")) ∧
    (∃ item' mc, newRssItem_fill
        (newRssItem_init Format
          { MediaContent := some { Url := "u", Type_ := "video/mp4", Length := "3" } })
        { MediaContent := some { Url := "u", Type_ := "video/mp4", Length := "3" } }
          = Except.ok item' ∧
      item'.MediaContent = some mc ∧ mc.Length = "") ∧
    newRssItem Format i = Except.error Panic.nilPointerDereference := by
  refine ⟨⟨_, newRssItem_fill_eq _ i, ?_⟩, ⟨_, _, rfl, rfl, rfl⟩, newRssItem_eq_error Format i⟩
  intro m hm h1 h2
  have hg : mediaGuard i = some m := (mediaGuard_eq_some_iff i m).mpr ⟨hm, h1, h2⟩
  refine ⟨{ Url := m.Url, Type_ := m.Type_,
            Medium := String.mk (m.Type_.data.takeWhile (fun c => c != '/')) }, ?_, rfl⟩
  show (match mediaGuard i with
    | some m =>
      some ({ Url := m.Url, Type_ := m.Type_,
              Medium := String.mk (m.Type_.data.takeWhile (fun c => c != '/')) } :
            RssMediaContent)
    | none => (newRssItem_init Format i).MediaContent) = _
  rw [hg]

end Feeds
